import Mathlib

/-!
Verification of the aicode request/response translation proxy.

The Go sources embedded here:
- `z-ai-proxy.go` / `x-ai-proxy.go` (identical up to renaming): the
  `handleMessages` HTTP handler translating Anthropic-style requests into the
  OpenAI-compatible backend format and back.
- `proxy/validator.go`: `ValidateRequest` (transport-level) and
  `ValidateAnthropicRequest` (schema-level).
- `proxy/middleware.go`: `AuthMiddleware`.
- `proxy/proxy.go` (staged inside `src/z-ai-adapter.sh`): `HandleHealth`.

Dynamically typed Go values (`interface{}`) are embedded as explicit inductive
types; Go `float64` fields are embedded as `ℚ` (the comparisons performed by
the code are exact on the values of interest); Go `int` as `ℤ`.
-/

/-- One element of a JSON content-block list.  In Go each element is an
`interface{}`; the code only distinguishes (a) a JSON object (Go
`map[string]interface{}`) whose `"text"` key holds a string, (b) a JSON object
without such a key, (c) a non-object element.  `obj t` covers (a)/(b) with
`t = some ...` exactly in case (a); `nonObj` covers (c). -/
inductive ContentItem where
  | obj (text : Option String)
  | nonObj
deriving DecidableEq, Repr

/-- The `text` string contributed by one block, if any: in Go,
`m, ok := block.(map[string]interface{}); t, ok := m["text"].(string)`. -/
def blockText : ContentItem → Option String
  | ContentItem.obj t => t
  | ContentItem.nonObj => none

/-- A dynamically-typed content value (`interface{}` in Go, after JSON
unmarshalling): a string, a block list, JSON null / absent (Go `nil`), or any
other shape carried with its Go default textual representation
(`fmt.Sprintf("%v", v)`). -/
inductive ContentValue where
  | str (s : String)
  | blocks (items : List ContentItem)
  | null
  | otherVal (goRepr : String)
deriving DecidableEq, Repr

/-- The block-list arm of content extraction (`z-ai-proxy.go` lines 147-155 and
118-126): a loop `contentStr += t` over the blocks whose `"text"` field is a
string; blocks without one are skipped. -/
def extractBlocks (items : List ContentItem) : String :=
  items.foldl
    (fun acc b =>
      match blockText b with
      | some t => acc ++ t
      | none => acc)
    ""

/-- Content extraction (`z-ai-proxy.go` lines 144-158, identically 115-129 for
the `system` field): a `switch` on the dynamic type.  A string is returned
unchanged; a block list goes through `extractBlocks`; the `default` arm
produces `fmt.Sprintf("%v", v)`, which on Go `nil` (JSON null / absent field)
is the literal string `"<nil>"`. -/
def extractContent : ContentValue → String
  | ContentValue.str s => s
  | ContentValue.blocks items => extractBlocks items
  | ContentValue.null => "<nil>"
  | ContentValue.otherVal r => r

/-- A message of the inbound (Anthropic-style) protocol
(`AnthropicMessage` in `z-ai-proxy.go` / `proxy` package models). -/
structure AnthropicMessage where
  role : String
  content : ContentValue
deriving DecidableEq, Repr

/-- The parsed inbound request (`AnthropicRequest`).  Absent numeric fields
unmarshal to their Go zero values; an absent or null `system` is Go `nil`,
embedded as `ContentValue.null`. -/
structure AnthropicRequest where
  model : String
  messages : List AnthropicMessage
  maxTokens : Int
  temperature : ℚ
  topP : ℚ
  system : ContentValue
deriving DecidableEq, Repr

/-- An outbound backend message (`Z_AIMessage` / `ProviderMessage`). -/
structure ProviderMessage where
  role : String
  content : String
deriving DecidableEq, Repr

/-- The outbound backend request (`Z_AIRequest` / `ProviderRequest`). -/
structure ProviderRequest where
  model : String
  messages : List ProviderMessage
  maxTokens : Int
  temperature : ℚ
  topP : ℚ
deriving DecidableEq, Repr

/-- The optional system message (`z-ai-proxy.go` lines 112-137): when
`anthropicReq.System != nil`, its extraction is prepended as a `"system"`
message provided it is non-empty. -/
def systemMessages (req : AnthropicRequest) : List ProviderMessage :=
  if req.system ≠ ContentValue.null then
    let systemStr := extractContent req.system
    if systemStr ≠ "" then [⟨"system", systemStr⟩] else []
  else []

/-- The conversion loop (`z-ai-proxy.go` lines 139-164): one
`append(z_aiMessages, ...)` per inbound message, in order. -/
def convertLoop : List AnthropicMessage → List ProviderMessage → List ProviderMessage
  | [], acc => acc
  | m :: rest, acc => convertLoop rest (acc ++ [⟨m.role, extractContent m.content⟩])

/-- All converted messages: the loop starts from the slice already holding the
optional system message. -/
def convertMessages (req : AnthropicRequest) : List ProviderMessage :=
  convertLoop req.messages (systemMessages req)

/-- The outbound request built at `z-ai-proxy.go` lines 166-173. -/
def buildProviderRequest (req : AnthropicRequest) : ProviderRequest :=
  { model := req.model
    messages := convertMessages req
    maxTokens := req.maxTokens
    temperature := req.temperature
    topP := req.topP }

-- Helper: the conversion loop is `acc ++ map`.
theorem convertLoop_eq (msgs : List AnthropicMessage) (acc : List ProviderMessage) :
    convertLoop msgs acc =
      acc ++ msgs.map (fun m => ProviderMessage.mk m.role (extractContent m.content)) := by
  induction msgs generalizing acc with
  | nil => simp [convertLoop]
  | cons m rest ih => simp [convertLoop, ih]

theorem convertMessages_eq (req : AnthropicRequest) :
    convertMessages req =
      systemMessages req ++
        req.messages.map (fun m => ProviderMessage.mk m.role (extractContent m.content)) :=
  convertLoop_eq req.messages (systemMessages req)

-- Helper: folding string append from an arbitrary accumulator.
theorem foldl_append_eq_join (l : List String) (a : String) :
    l.foldl (fun r s => r ++ s) a = a ++ String.join l := by
  induction l generalizing a with
  | nil => simp [String.join]
  | cons s rest ih =>
      show List.foldl _ (a ++ s) rest = _
      rw [ih (a ++ s)]
      have h2 : String.join (s :: rest) = s ++ String.join rest := by
        show List.foldl _ ("" ++ s) rest = _
        rw [ih ("" ++ s)]
        simp
      rw [h2, String.append_assoc]

-- Helper: extraction of a block list concatenates, with no separator, the
-- text fields of exactly the text-bearing blocks, in order.
theorem extractBlocks_eq (items : List ContentItem) :
    extractBlocks items = String.join (items.filterMap blockText) := by
  have gen : ∀ (its : List ContentItem) (acc : String),
      its.foldl
        (fun acc b =>
          match blockText b with
          | some t => acc ++ t
          | none => acc)
        acc = acc ++ String.join (its.filterMap blockText) := by
    intro its
    induction its with
    | nil => intro acc; simp [String.join]
    | cons b rest ih =>
        intro acc
        cases hb : blockText b with
        | none => simp [hb, ih, List.filterMap_cons]
        | some t =>
            simp only [List.foldl_cons, hb, List.filterMap_cons]
            rw [ih (acc ++ t)]
            have h2 : String.join (t :: rest.filterMap blockText) =
                t ++ String.join (rest.filterMap blockText) := by
              show List.foldl _ ("" ++ t) _ = _
              rw [foldl_append_eq_join]
              simp
            rw [h2, String.append_assoc]
  simpa [extractBlocks] using gen items ""

/-- Validation limits (`proxy/validator.go` lines 8-15). -/
def MaxRequestBodySize : Int := 10 * 1024 * 1024

def MaxMessages : Nat := 100

def MaxTokens : Int := 100000

/-- `ValidateRequest` (`proxy/validator.go` lines 18-25): the only transport
check is on the declared `Content-Length` (`r.ContentLength`, an `int64` that
is `-1` when the length is unknown).  Returns the error message, or `none` on
acceptance. -/
def ValidateRequest (contentLength : Int) : Option String :=
  if contentLength > MaxRequestBodySize then
    some "request body too large"
  else
    none

/-- `ValidateAnthropicRequest` (`proxy/validator.go` lines 28-63): a sequence
of checks, each returning its own message; the first violated rule wins. -/
def ValidateAnthropicRequest (req : AnthropicRequest) : Option String :=
  if req.model = "" then
    some "model is required"
  else if req.messages.length = 0 then
    some "messages array cannot be empty"
  else if req.messages.length > MaxMessages then
    some "too many messages"
  else if req.maxTokens > MaxTokens then
    some "max_tokens too large"
  else if req.maxTokens < 0 then
    some "max_tokens cannot be negative"
  else if req.temperature < 0 ∨ req.temperature > 2 then
    some "temperature must be between 0 and 2"
  else if req.topP < 0 ∨ req.topP > 1 then
    some "top_p must be between 0 and 1"
  else
    none

/-- The immutable proxy configuration (`proxy.Config`, as constructed in each
binary's `main` and read by `proxy/middleware.go` via `p.config`). -/
structure Config where
  providerName : String
  baseURL : String
  port : String
  authToken : String
  authRequired : Bool
  proxyAuthToken : String
deriving DecidableEq, Repr

/-- What the auth middleware does with one request: pass it through to the
wrapped handler, or write an error status and body and stop. -/
inductive AuthDecision where
  | allow
  | reject (status : Nat) (body : String)
deriving DecidableEq, Repr

/-- Go `strings.SplitN(s, " ", 2)`: split at the first space only. -/
def splitN2SpaceAux (acc : List Char) : List Char → List String
  | [] => [String.mk acc.reverse]
  | c :: rest =>
      if c = ' ' then [String.mk acc.reverse, String.mk rest]
      else splitN2SpaceAux (c :: acc) rest

def splitN2Space (s : String) : List String :=
  splitN2SpaceAux [] s.data

/-- `AuthMiddleware` (`proxy/middleware.go` lines 9-45).  `authHeader` is
`r.Header.Get("Authorization")`, which is `""` when the header is absent. -/
def authMiddleware (cfg : Config) (path : String) (authHeader : String) : AuthDecision :=
  if path = "/health" then
    AuthDecision.allow
  else if cfg.authRequired = false ∨ cfg.proxyAuthToken = "" then
    AuthDecision.allow
  else if authHeader = "" then
    AuthDecision.reject 401 "Authorization header required"
  else
    let parts := splitN2Space authHeader
    if parts.length ≠ 2 ∨ parts.headD "" ≠ "Bearer" then
      AuthDecision.reject 401 "Invalid authorization format. Use: Bearer <token>"
    else if parts.getD 1 "" ≠ cfg.proxyAuthToken then
      AuthDecision.reject 401 "Invalid authorization token"
    else
      AuthDecision.allow

/-- One choice of the backend response (`Z_AIChoice` / `ProviderChoice`). -/
structure ProviderChoice where
  content : String
  finishReason : String
deriving DecidableEq, Repr

/-- Backend token usage (`Z_AIUsage` / `ProviderUsage`). -/
structure ProviderUsage where
  promptTokens : Int
  completionTokens : Int
deriving DecidableEq, Repr

/-- The parsed backend response (`Z_AIResponse` / `ProviderResponse`).  The
`Error` field is `interface{}`; it is embedded as its Go `%v` representation
when non-nil. -/
structure ProviderResponse where
  id : String
  model : String
  choices : List ProviderChoice
  usage : ProviderUsage
  error : Option String
deriving DecidableEq, Repr

/-- One content item of the Anthropic-style response. -/
structure SourceContentItem where
  type : String
  text : String
deriving DecidableEq, Repr

/-- Usage block of the Anthropic-style response. -/
structure SourceUsage where
  inputTokens : Int
  outputTokens : Int
  cacheCreationInputTokens : Int
  cacheReadInputTokens : Int
deriving DecidableEq, Repr

/-- The Anthropic-style response (`AnthropicResponse`).  `stopSequence` is
always set to JSON null (`none`). -/
structure AnthropicResponse where
  id : String
  type : String
  role : String
  content : List SourceContentItem
  model : String
  stopReason : String
  stopSequence : Option String
  usage : SourceUsage
deriving DecidableEq, Repr

/-- Response conversion (`z-ai-proxy.go` lines 230-262): when `choices` is
non-empty, the first choice supplies the single text content item and the
finish-reason classification; otherwise `content` and `stopReason` keep their
Go zero values. -/
def toAnthropicResponse (r : ProviderResponse) : AnthropicResponse :=
  let contentAndStop : List SourceContentItem × String :=
    match r.choices with
    | [] => ([], "")
    | c :: _ =>
        ([⟨"text", c.content⟩],
         if c.finishReason = "stop" then "end_turn" else "max_tokens")
  { id := "msg_" ++ r.id
    type := "message"
    role := "assistant"
    content := contentAndStop.1
    model := r.model
    stopReason := contentAndStop.2
    stopSequence := none
    usage := ⟨r.usage.promptTokens, r.usage.completionTokens, 0, 0⟩ }

/-- What one pass through `handleMessages` observably does: write an error
status and message, issue the outbound backend call, or write the converted
success response. -/
inductive HandlerOutcome where
  | errorResp (status : Nat) (message : String)
  | upstreamCall (url : String) (method : String)
      (headers : List (String × String)) (payload : ProviderRequest)
  | success (resp : AnthropicResponse)
deriving DecidableEq, Repr

/-- Trailing-slash stripping (`z-ai-proxy.go` lines 183-186): when the base
URL is non-empty and its last byte is `'/'`, drop that one character. -/
def stripTrailingSlash (s : String) : String :=
  match s.data.getLast? with
  | some '/' => String.mk s.data.dropLast
  | _ => s

/-- The outbound headers set at `z-ai-proxy.go` lines 194-195: exactly
`Authorization` and `Content-Type`, nothing else. -/
def zaiOutboundHeaders (token : String) : List (String × String) :=
  [("Authorization", "Bearer " ++ token), ("Content-Type", "application/json")]

/-- The request-side phase of `handleMessages` (`z-ai-proxy.go` lines 88-195):
method check, body read (`io.ReadAll` with no size cap — `bodyLen`, the actual
body size, is never consulted), JSON parse (`parsed` is the unmarshal result;
the Go message is `"Invalid JSON: %v"`, embedded without the error detail),
conversion, and dispatch of the outbound call. -/
def handleMessagesRequest (baseURL token : String) (method : String)
    (_bodyLen : Nat) (parsed : Option AnthropicRequest) : HandlerOutcome :=
  if method ≠ "POST" then
    HandlerOutcome.errorResp 405 "Method not allowed"
  else
    match parsed with
    | none => HandlerOutcome.errorResp 400 "Invalid JSON"
    | some req =>
        HandlerOutcome.upstreamCall (stripTrailingSlash baseURL ++ "/chat/completions")
          "POST" (zaiOutboundHeaders token) (buildProviderRequest req)

/-- The response-side phase of `handleMessages` (`z-ai-proxy.go` lines
205-267), given the backend's HTTP status, its raw body text, and the result
of unmarshalling that body (consulted only when the status is 200). -/
def handleMessagesUpstream (status : Nat) (rawBody : String)
    (parsed : Option ProviderResponse) : HandlerOutcome :=
  if status ≠ 200 then
    HandlerOutcome.errorResp status ("Z.AI error: " ++ rawBody)
  else
    match parsed with
    | none => HandlerOutcome.errorResp 502 "Failed to parse Z.AI response"
    | some resp =>
        match resp.error with
        | some e => HandlerOutcome.errorResp 502 ("Z.AI returned error: " ++ e)
        | none => HandlerOutcome.success (toAnthropicResponse resp)

/-- The JSON object written by the health endpoint: a two-key string map with
a `status` entry and a `provider` entry. -/
structure HealthPayload where
  status : String
  provider : String
deriving DecidableEq, Repr

/-- `HandleHealth` (`proxy/proxy.go`, staged in `src/z-ai-adapter.sh` lines
430-438): unconditionally writes status 200 and encodes the map with `status`
set to `"ok"` and `provider` set to the configured provider name.  The request
`r` is never read — embedded as the ignored `_method`/`_path` arguments — so
every request, in particular any GET, receives the same answer, and neither
the validator nor the backend client is involved. -/
def HandleHealth (cfg : Config) (_method _path : String) : Nat × HealthPayload :=
  (200, ⟨"ok", cfg.providerName⟩)

/-- A minimal well-formed message used in concrete instances. -/
def boundaryMsg : AnthropicMessage := ⟨"user", ContentValue.str "hi"⟩

/-- A request with `numMsgs` copies of `boundaryMsg` and the given numeric
fields, used for validation boundary instances. -/
def boundaryReq (numMsgs : Nat) (mt : Int) (temp tp : ℚ) : AnthropicRequest :=
  ⟨"glm-4", List.replicate numMsgs boundaryMsg, mt, temp, tp, ContentValue.null⟩

/-- C1 (counterexample): extraction of the block list
`[{text:"a"},{other},{text:"b"}]` yields `"ab"`, not the newline-joined
`"a\nb"` the claim states — the loop at `z-ai-proxy.go` lines 149-155 appends
with `contentStr += t` and inserts no separator. -/
theorem extract_newline_join_cex :
    extractContent (ContentValue.blocks
      [ContentItem.obj (some "a"), ContentItem.obj none, ContentItem.obj (some "b")]) = "ab" ∧
    ("ab" : String) ≠ "a" ++ "\n" ++ "b" :=
  ⟨rfl, by decide⟩

/-- C1 (amended): for every content value that is a list of blocks, extraction
collects the `text` field of every block that carries a text string, in list
order, skipping blocks without text, and concatenates the collected texts
directly with no separator; in particular
`extract([{text:"a"},{other},{text:"b"}])` equals `"ab"`. -/
theorem extract_blocks_concatenation :
    (∀ items : List ContentItem,
      extractContent (ContentValue.blocks items) = String.join (items.filterMap blockText)) ∧
    extractContent (ContentValue.blocks
      [ContentItem.obj (some "a"), ContentItem.obj none, ContentItem.obj (some "b")]) = "ab" :=
  ⟨fun items => extractBlocks_eq items, rfl⟩

-- Helper: full acceptance characterization of the schema validator.
theorem validate_none_iff (req : AnthropicRequest) :
    ValidateAnthropicRequest req = none ↔
      (req.model ≠ "" ∧ 1 ≤ req.messages.length ∧ req.messages.length ≤ 100 ∧
       0 ≤ req.maxTokens ∧ req.maxTokens ≤ 100000 ∧
       0 ≤ req.temperature ∧ req.temperature ≤ 2 ∧
       0 ≤ req.topP ∧ req.topP ≤ 1) := by
  simp only [ValidateAnthropicRequest, MaxMessages, MaxTokens]
  split_ifs with h1 h2 h3 h4 h5 h6 h7
  · refine iff_of_false (by simp) ?_
    rintro ⟨hm, -⟩
    exact hm h1
  · refine iff_of_false (by simp) ?_
    rintro ⟨-, hl1, -⟩
    omega
  · refine iff_of_false (by simp) ?_
    rintro ⟨-, -, hl2, -⟩
    omega
  · refine iff_of_false (by simp) ?_
    rintro ⟨-, -, -, -, ht2, -⟩
    omega
  · refine iff_of_false (by simp) ?_
    rintro ⟨-, -, -, ht1, -⟩
    omega
  · refine iff_of_false (by simp) ?_
    rintro ⟨-, -, -, -, -, hq1, hq2, -⟩
    rcases h6 with h | h <;> linarith
  · refine iff_of_false (by simp) ?_
    rintro ⟨-, -, -, -, -, -, -, hp1, hp2⟩
    rcases h7 with h | h <;> linarith
  · push_neg at h6 h7
    exact iff_of_true rfl
      ⟨h1, by omega, by omega, by omega, by omega, h6.1, h6.2, h7.1, h7.2⟩

/-- C2: schema validation accepts a parsed request iff `model` is non-empty,
`messages` has 1..100 entries, `max_tokens` lies in `[0, 100000]`,
`temperature` lies in `[0, 2]` and `top_p` lies in `[0, 1]`; with the claim's
boundary instances (`max_tokens` 100000 passes / 100001 fails, `temperature`
2 passes / 2.01 fails, 0 messages fail, 101 messages fail). -/
theorem validate_anthropic_characterization :
    (∀ req : AnthropicRequest,
      ValidateAnthropicRequest req = none ↔
        (req.model ≠ "" ∧ 1 ≤ req.messages.length ∧ req.messages.length ≤ 100 ∧
         0 ≤ req.maxTokens ∧ req.maxTokens ≤ 100000 ∧
         0 ≤ req.temperature ∧ req.temperature ≤ 2 ∧
         0 ≤ req.topP ∧ req.topP ≤ 1)) ∧
    ValidateAnthropicRequest (boundaryReq 1 100000 1 1) = none ∧
    ValidateAnthropicRequest (boundaryReq 1 100001 1 1) ≠ none ∧
    ValidateAnthropicRequest (boundaryReq 1 0 2 1) = none ∧
    ValidateAnthropicRequest (boundaryReq 1 0 2.01 1) ≠ none ∧
    ValidateAnthropicRequest (boundaryReq 0 0 1 1) ≠ none ∧
    ValidateAnthropicRequest (boundaryReq 101 0 1 1) ≠ none := by
  refine ⟨validate_none_iff, by decide, by decide, by decide, ?_, by decide, by decide⟩
  intro h
  have ht := ((validate_none_iff _).mp h).2.2.2.2.2.2.1
  norm_num [boundaryReq] at ht

/-- A configuration with auth required and a proxy credential set, for the
auth counterexample. -/
def cfgAuthEx : Config := ⟨"Z.AI", "https://api.z.ai/api/paas/v4", "9000", "tok", true, "secret"⟩

/-- C3 (counterexample): with auth required and a credential configured, a
request with a missing `Authorization` header, one with a wrong scheme and one
with a wrong token are all rejected with status 401, but with three distinct
response bodies naming the failed check — the body does distinguish which
check failed, contrary to the claim. -/
theorem auth_reject_body_cex :
    authMiddleware cfgAuthEx "/v1/messages" ""
      = AuthDecision.reject 401 "Authorization header required" ∧
    authMiddleware cfgAuthEx "/v1/messages" "Basic secret"
      = AuthDecision.reject 401 "Invalid authorization format. Use: Bearer <token>" ∧
    authMiddleware cfgAuthEx "/v1/messages" "Bearer wrong"
      = AuthDecision.reject 401 "Invalid authorization token" ∧
    ("Authorization header required" : String) ≠ "Invalid authorization token" := by
  refine ⟨?_, ?_, ?_, by decide⟩ <;> decide

/-- C3 (amended): when auth is required and a proxy credential is configured,
every failed bearer-token check (missing header, wrong scheme, wrong token) is
rejected with status 401, uniformly in the status code; the response body,
however, names the failed check and so differs between the failure reasons. -/
theorem auth_reject_status_uniform :
    ∀ (cfg : Config) (path authHeader : String),
      authMiddleware cfg path authHeader = AuthDecision.allow ∨
      (∃ body, authMiddleware cfg path authHeader = AuthDecision.reject 401 body) := by
  intro cfg path authHeader
  simp only [authMiddleware]
  split_ifs <;> first
    | exact Or.inl rfl
    | exact Or.inr ⟨_, rfl⟩

/-- A small well-formed request used in concrete handler instances. -/
def reqEx : AnthropicRequest :=
  ⟨"glm-4", [⟨"user", ContentValue.str "hi"⟩], 100, 1, 1, ContentValue.null⟩

/-- C4 (counterexample): a request whose declared `Content-Length` is `-1`
(missing) passes `ValidateRequest` no matter how large the actual body is, and
the handler, called here with an actual body of 10 MiB + 1 bytes, attempts
JSON parsing (a malformed body yields 400 "Invalid JSON") or proceeds all the
way to the outbound call — it is not rejected with 413, and no hard-capped
reader exists on the body-read path (`io.ReadAll` at `z-ai-proxy.go` line
95). -/
theorem size_cap_cex :
    ValidateRequest (-1) = none ∧
    handleMessagesRequest "u" "tok" "POST" (10 * 1024 * 1024 + 1) none
      = HandlerOutcome.errorResp 400 "Invalid JSON" ∧
    handleMessagesRequest "u" "tok" "POST" (10 * 1024 * 1024 + 1) (some reqEx)
      = HandlerOutcome.upstreamCall "u/chat/completions" "POST"
          [("Authorization", "Bearer tok"), ("Content-Type", "application/json")]
          ⟨"glm-4", [⟨"user", "hi"⟩], 100, 1, 1⟩ ∧
    (400 : Nat) ≠ 413 :=
  ⟨by decide, by decide, by decide, by decide⟩

/-- C4 (amended): only the declared `Content-Length` is checked against the
10 MiB ceiling — `ValidateRequest` accepts exactly when the declared length is
at most the ceiling — and the body is not read through a hard-capped reader:
the handler's behaviour is independent of the actual body size, so a missing
or understated `Content-Length` bypasses the limit and an oversized body
reaches JSON parsing instead of being rejected with 413. -/
theorem size_check_declared_only :
    (∀ contentLength : Int,
        ValidateRequest contentLength = none ↔ contentLength ≤ MaxRequestBodySize) ∧
    (∀ (baseURL token method : String) (bodyLen : Nat) (parsed : Option AnthropicRequest),
        handleMessagesRequest baseURL token method bodyLen parsed =
          handleMessagesRequest baseURL token method 0 parsed) := by
  constructor
  · intro contentLength
    simp only [ValidateRequest]
    split_ifs with h
    · exact iff_of_false (by simp) (by omega)
    · exact iff_of_true rfl (by omega)
  · intro _ _ _ _ _
    rfl

/-- C5: when the backend response has a non-empty choices list, the converted
response has `stop_reason = "end_turn"` iff `choices[0].finish_reason` is
`"stop"`, and `stop_reason = "max_tokens"` for every other finish reason. -/
theorem finish_reason_classification (r : ProviderResponse) (c : ProviderChoice)
    (rest : List ProviderChoice) (h : r.choices = c :: rest) :
    ((toAnthropicResponse r).stopReason = "end_turn" ↔ c.finishReason = "stop") ∧
    (c.finishReason ≠ "stop" → (toAnthropicResponse r).stopReason = "max_tokens") := by
  by_cases hf : c.finishReason = "stop"
  · refine ⟨?_, fun hc => absurd hf hc⟩
    simp [toAnthropicResponse, h, hf]
  · refine ⟨?_, fun _ => by simp [toAnthropicResponse, h, hf]⟩
    simp only [toAnthropicResponse, h]
    rw [if_neg hf]
    exact iff_of_false (by decide) hf

/-- A backend response whose first choice finished with `"length"`. -/
def respLength : ProviderResponse := ⟨"abc", "m", [⟨"hello", "length"⟩], ⟨3, 1⟩, none⟩

/-- C5 witness: instantiating the classification at a concrete response whose
finish reason is `"length"`. -/
theorem finish_reason_classification_witness :
    respLength.choices = ProviderChoice.mk "hello" "length" :: [] ∧
    (((toAnthropicResponse respLength).stopReason = "end_turn" ↔
        (ProviderChoice.mk "hello" "length").finishReason = "stop") ∧
      ((ProviderChoice.mk "hello" "length").finishReason ≠ "stop" →
        (toAnthropicResponse respLength).stopReason = "max_tokens")) :=
  ⟨rfl, finish_reason_classification respLength (ProviderChoice.mk "hello" "length") [] rfl⟩

/-- C6: on a non-200 backend status the handler responds with the backend's
own status code and a message that is the provider name followed by the
backend's raw body text — so the message has the provider name `"Z.AI"` as a
prefix and the raw error text as a suffix; it is not an internal-error
message. -/
theorem upstream_error_passthrough (status : Nat) (rawBody : String)
    (parsed : Option ProviderResponse) (h : status ≠ 200) :
    handleMessagesUpstream status rawBody parsed
      = HandlerOutcome.errorResp status ("Z.AI error: " ++ rawBody) ∧
    "Z.AI".data <+: ("Z.AI error: " ++ rawBody).data ∧
    rawBody.data <:+ ("Z.AI error: " ++ rawBody).data := by
  have key : ("Z.AI" : String) ++ " error: " = "Z.AI error: " := rfl
  refine ⟨by simp [handleMessagesUpstream, h], ?_, ?_⟩
  · rw [← key, String.data_append, String.data_append, List.append_assoc]
    exact List.prefix_append _ _
  · rw [String.data_append]
    exact List.suffix_append _ _

/-- The raw backend body of the claim's example, a JSON object with an
`error` field holding `"boom"`. -/
def boomBody : String := "\x7b\"error\":\"boom\"\x7d"

/-- C6 witness: a backend 500 whose body is the boom JSON object surfaces with
status 500 and message `Z.AI error: ` followed by that body. -/
theorem upstream_error_passthrough_witness :
    (500 : Nat) ≠ 200 ∧
    (handleMessagesUpstream 500 boomBody none
        = HandlerOutcome.errorResp 500 ("Z.AI error: " ++ boomBody) ∧
      "Z.AI".data <+: ("Z.AI error: " ++ boomBody).data ∧
      boomBody.data <:+ ("Z.AI error: " ++ boomBody).data) :=
  ⟨by decide, upstream_error_passthrough 500 boomBody none (by decide)⟩

/-- C7: every request to the health endpoint — in particular a GET — returns
status 200 with payload `status = "ok"` naming the configured provider, and
the auth middleware passes the `/health` path through unconditionally, in
both auth modes and for every Authorization header; the handler consults
nothing but the configuration, touching neither validation nor the
backend. -/
theorem health_ok_and_auth_exempt :
    ∀ (cfg : Config) (method path authHeader : String),
      HandleHealth cfg method path = (200, ⟨"ok", cfg.providerName⟩) ∧
      authMiddleware cfg "/health" authHeader = AuthDecision.allow := by
  intro cfg method path authHeader
  exact ⟨rfl, by simp [authMiddleware]⟩

/-- C8 (counterexample): for an accepted request the outbound call is a POST
to the slash-stripped base URL plus `/chat/completions` with exactly the
`Authorization` and `Content-Type` headers — no `X-Request-ID` header is
forwarded (`z-ai-proxy.go` lines 188-195 set only those two headers). -/
theorem outbound_headers_cex :
    handleMessagesRequest "https://api.z.ai/api/paas/v4/" "tok" "POST" 0 (some reqEx)
      = HandlerOutcome.upstreamCall "https://api.z.ai/api/paas/v4/chat/completions" "POST"
          [("Authorization", "Bearer tok"), ("Content-Type", "application/json")]
          ⟨"glm-4", [⟨"user", "hi"⟩], 100, 1, 1⟩ ∧
    (zaiOutboundHeaders "tok").lookup "X-Request-ID" = none :=
  ⟨by decide, rfl⟩

/-- C8 (amended): for every accepted inbound request the outbound backend call
is a POST to `<base_url>/chat/completions` with a trailing slash on the base
URL stripped, carrying header `Authorization: Bearer <backend credential>` and
header `Content-Type: application/json`, with the canonical request as the
body; no `X-Request-ID` header is forwarded. -/
theorem outbound_call_shape :
    ∀ (baseURL token : String) (bodyLen : Nat) (req : AnthropicRequest),
      handleMessagesRequest baseURL token "POST" bodyLen (some req) =
        HandlerOutcome.upstreamCall (stripTrailingSlash baseURL ++ "/chat/completions")
          "POST" (zaiOutboundHeaders token) (buildProviderRequest req) ∧
      (zaiOutboundHeaders token).lookup "Authorization" = some ("Bearer " ++ token) ∧
      (zaiOutboundHeaders token).lookup "Content-Type" = some "application/json" ∧
      (zaiOutboundHeaders token).lookup "X-Request-ID" = none := by
  intro baseURL token bodyLen req
  exact ⟨rfl, rfl, rfl, rfl⟩

-- Helper: the system prefix holds exactly one message when the system field
-- is present (non-null) and extracts to a non-empty string, else none.
theorem systemMessages_length (req : AnthropicRequest) :
    (systemMessages req).length =
      if req.system ≠ ContentValue.null ∧ extractContent req.system ≠ "" then 1 else 0 := by
  by_cases h1 : req.system ≠ ContentValue.null
  · by_cases h2 : extractContent req.system ≠ ""
    · simp [systemMessages, h1, h2]
    · simp [systemMessages, h1, h2]
  · simp [systemMessages, h1]

/-- C9: request conversion appends exactly one canonical message per source
message, in input order and with the role copied verbatim (a message whose
content flattens to the empty string is still forwarded, since the map is
total), so the canonical message list is the optional system prefix followed
by the per-message map, and its length is the number of source messages plus
one exactly when the system field is present and extracts to a non-empty
string. -/
theorem conversion_preserves_messages :
    ∀ req : AnthropicRequest,
      (buildProviderRequest req).messages =
        systemMessages req ++
          req.messages.map (fun m => ProviderMessage.mk m.role (extractContent m.content)) ∧
      (buildProviderRequest req).messages.length =
        req.messages.length +
          (if req.system ≠ ContentValue.null ∧ extractContent req.system ≠ "" then 1 else 0) := by
  intro req
  refine ⟨convertMessages_eq req, ?_⟩
  rw [show (buildProviderRequest req).messages = convertMessages req from rfl,
    convertMessages_eq req]
  simp only [List.length_append, List.length_map, systemMessages_length]
  omega

/-- C10: a source message whose content field is absent or JSON null (Go
`nil`) goes through the extraction fallback and produces the literal string
`"<nil>"` — not the empty string — and that string is forwarded upstream as
the message content. -/
theorem null_content_forwarded (req : AnthropicRequest) (m : AnthropicMessage)
    (hm : m ∈ req.messages) (hc : m.content = ContentValue.null) :
    extractContent m.content = "<nil>" ∧ ("<nil>" : String) ≠ "" ∧
    ProviderMessage.mk m.role "<nil>" ∈ (buildProviderRequest req).messages := by
  refine ⟨by rw [hc]; rfl, by decide, ?_⟩
  rw [show (buildProviderRequest req).messages = convertMessages req from rfl,
    convertMessages_eq req]
  refine List.mem_append_right _ ?_
  refine List.mem_map.mpr ⟨m, hm, ?_⟩
  rw [hc]
  rfl

/-- A request whose single message carries a null content field. -/
def reqNull : AnthropicRequest :=
  ⟨"glm-4", [⟨"user", ContentValue.null⟩], 0, 0, 0, ContentValue.null⟩

/-- C10 witness: instantiating at a concrete request whose one message has
null content. -/
theorem null_content_forwarded_witness :
    ((⟨"user", ContentValue.null⟩ : AnthropicMessage) ∈ reqNull.messages ∧
      (AnthropicMessage.mk "user" ContentValue.null).content = ContentValue.null) ∧
    (extractContent (AnthropicMessage.mk "user" ContentValue.null).content = "<nil>" ∧
      ("<nil>" : String) ≠ "" ∧
      ProviderMessage.mk "user" "<nil>" ∈ (buildProviderRequest reqNull).messages) :=
  ⟨⟨by decide, rfl⟩,
   null_content_forwarded reqNull ⟨"user", ContentValue.null⟩ (by decide) rfl⟩
